import Mathlib

/-!
Verification of the XZ bounding-box core (`XZBBox` shape-dispatcher enum and its
rectangular variant) of the arnis coordinate-system module.

The enum `XZBBox` and all of its methods are embedded from
`src/coordinate_system/cartesian/xzbbox/xzbbox_enum.rs`.  The collaborators
`XZPoint`, `XZVector` and `XZBBoxRect` live in sibling modules whose source is
not part of this snapshot; they are modelled from the specification and marked
as such in their doc comments.

`f64` values are embedded by the type `F64`: a finite double is represented by
the rational number it denotes exactly (every finite IEEE-754 double is a
rational), and NaN and the two infinities are separate constructors.  The only
float operations the code performs — the comparisons `>= 0.0` and
`> i32::MAX as f64`, and the saturating cast `as i32` — are exact on this
representation (`i32::MAX as f64` is exactly 2147483647, well below 2^53).
-/

/-- Embedding of the `f64` inputs: NaN, the infinities, or an exact finite
value represented by the rational it denotes. -/
inductive F64 where
  | nan : F64
  | inf : F64
  | neginf : F64
  | finite : ℚ → F64
deriving DecidableEq, Repr

/-- The comparison `x >= 0.0` on an `f64`: false for NaN, true for +∞,
false for -∞, the rational comparison otherwise. -/
def F64.ge0 : F64 → Bool
  | .nan => false
  | .inf => true
  | .neginf => false
  | .finite q => decide (0 ≤ q)

/-- The comparison `x > i32::MAX as f64`: false for NaN and -∞, true for +∞,
the rational comparison against 2147483647 otherwise. -/
def F64.gtI32Max : F64 → Bool
  | .nan => false
  | .inf => true
  | .neginf => false
  | .finite q => decide ((2147483647 : ℚ) < q)

/-- Rust's saturating cast `as i32` on an `f64`: NaN maps to 0, the cast
truncates toward zero and saturates at the `i32` range bounds. -/
def F64.as_i32 : F64 → Int
  | .nan => 0
  | .inf => 2147483647
  | .neginf => -2147483648
  | .finite q =>
      let t : Int := if 0 ≤ q then ⌊q⌋ else ⌈q⌉
      max (-2147483648) (min 2147483647 t)

/-- Rendering of an `f64` into a display string (the shape `{}` formatting
takes in the error messages). -/
def F64.render : F64 → String
  | .nan => "NaN"
  | .inf => "inf"
  | .neginf => "-inf"
  | .finite q => if q.den = 1 then toString q.num else toString q

/-- Modelled from the spec: the external collaborator `XZPoint`, "an ordered
pair of signed 32-bit integers `(x, z)`"; its source module is not in the
snapshot.  Coordinates are embedded as mathematical integers. -/
structure XZPoint where
  x : Int
  z : Int
deriving DecidableEq, Repr

/-- Modelled from the spec: the `XZPoint::new` constructor used by
`XZBBox::into_iter`. -/
def XZPoint.new (x z : Int) : XZPoint := ⟨x, z⟩

/-- Modelled from the spec: the external collaborator `XZVector`, "an ordered
pair of signed integer deltas `(dx, dz)`"; its source module is not in the
snapshot. -/
structure XZVector where
  dx : Int
  dz : Int
deriving DecidableEq, Repr

/-- Modelled from the spec: negation of a vector, for the `-v` round-trip
law. -/
def XZVector.neg (v : XZVector) : XZVector := ⟨-v.dx, -v.dz⟩

/-- Modelled from the spec: the rectangle bounding box `XZBBoxRect`, "two
points, `min` and `max`", with the invariant `min.x <= max.x` and
`min.z <= max.z` enforced at construction; its source module is not in the
snapshot. -/
structure XZBBoxRect where
  min : XZPoint
  max : XZPoint
deriving DecidableEq, Repr

/-- Modelled from the spec: `Construct(min, max)` "fails with an
`InvalidBounds` condition when `min.x > max.x` or `min.z > max.z`; otherwise
returns the rectangle". -/
def XZBBoxRect.new (pmin pmax : XZPoint) : Except String XZBBoxRect :=
  if pmax.x < pmin.x ∨ pmax.z < pmin.z then
    .error "Invalid XZBBoxRect: min corner exceeds max corner"
  else
    .ok ⟨pmin, pmax⟩

/-- Modelled from the spec: `contains(point)` is "true iff
`min.x <= point.x <= max.x` and `min.z <= point.z <= max.z`". -/
def XZBBoxRect.contains (r : XZBBoxRect) (p : XZPoint) : Bool :=
  decide (r.min.x ≤ p.x) && decide (p.x ≤ r.max.x) &&
  decide (r.min.z ≤ p.z) && decide (p.z ≤ r.max.z)

/-- Modelled from the spec: `total_blocks_x()` is `max.x - min.x + 1`. -/
def XZBBoxRect.total_blocks_x (r : XZBBoxRect) : Int :=
  r.max.x - r.min.x + 1

/-- Modelled from the spec: `total_blocks_z()` is `max.z - min.z + 1`. -/
def XZBBoxRect.total_blocks_z (r : XZBBoxRect) : Int :=
  r.max.z - r.min.z + 1

/-- Modelled from the spec: translation by a vector "shifts both `min` and
`max` by `v` componentwise"; no bounds re-validation is performed. -/
def XZBBoxRect.add (r : XZBBoxRect) (v : XZVector) : XZBBoxRect :=
  ⟨⟨r.min.x + v.dx, r.min.z + v.dz⟩, ⟨r.max.x + v.dx, r.max.z + v.dz⟩⟩

/-- Modelled from the spec: translation by `-v` for the subtraction
operators. -/
def XZBBoxRect.sub (r : XZBBoxRect) (v : XZVector) : XZBBoxRect :=
  ⟨⟨r.min.x - v.dx, r.min.z - v.dz⟩, ⟨r.max.x - v.dx, r.max.z - v.dz⟩⟩

/-- The enum `XZBBox` from `xzbbox_enum.rs`: "Bounding Box in minecraft XZ
space with varied shapes", currently the single variant `Rect`. -/
inductive XZBBox where
  | Rect : XZBBoxRect → XZBBox
deriving DecidableEq, Repr

/-- `XZBBox::rect_from_xz_lengths`: validates the two lengths (non-negative,
then not above `i32::MAX`, x before z at each stage), then truncates them to
`i32` and builds the rectangle from `(0,0)`.  The error strings reproduce the
source's `format!` templates, including that the negative-`length_z` branch
interpolates `{length_x}`. -/
def XZBBox.rect_from_xz_lengths (length_x length_z : F64) : Except String XZBBox :=
  let lenx_ge_0 := length_x.ge0
  let lenz_ge_0 := length_z.ge0
  let lenx_overflow := length_x.gtI32Max
  let lenz_overflow := length_z.gtI32Max
  if !lenx_ge_0 then
    .error ("Invalid XZBBox::Rect from xz lengths: length x should >=0 , but encountered " ++ length_x.render)
  else if !lenz_ge_0 then
    .error ("Invalid XZBBox::Rect from xz lengths: length z should >=0 , but encountered " ++ length_x.render)
  else if lenx_overflow then
    .error ("Invalid XZBBox::Rect from xz lengths: length x too large for i32: " ++ length_x.render)
  else if lenz_overflow then
    .error ("Invalid XZBBox::Rect from xz lengths: length z too large for i32: " ++ length_z.render)
  else
    (XZBBoxRect.new (XZPoint.mk 0 0)
      (XZPoint.mk length_x.as_i32 length_z.as_i32)).map XZBBox.Rect

/-- `XZBBox::contains`: dispatch to the variant's containment check. -/
def XZBBox.contains (b : XZBBox) (p : XZPoint) : Bool :=
  match b with
  | .Rect r => r.contains p

/-- `XZBBox::bounding_rect`: the circumscribed rectangle; for the `Rect`
variant, a copy of the wrapped rectangle. -/
def XZBBox.bounding_rect (b : XZBBox) : XZBBoxRect :=
  match b with
  | .Rect r => r

/-- `XZBBox::min_x`: `self.bounding_rect().min().x`. -/
def XZBBox.min_x (b : XZBBox) : Int := b.bounding_rect.min.x

/-- `XZBBox::max_x`: `self.bounding_rect().max().x`. -/
def XZBBox.max_x (b : XZBBox) : Int := b.bounding_rect.max.x

/-- `XZBBox::min_z`: `self.bounding_rect().min().z`. -/
def XZBBox.min_z (b : XZBBox) : Int := b.bounding_rect.min.z

/-- `XZBBox::max_z`: `self.bounding_rect().max().z`. -/
def XZBBox.max_z (b : XZBBox) : Int := b.bounding_rect.max.z

/-- The inclusive integer range `lo..=hi` as a list (empty when `hi < lo`). -/
def intRangeIncl (lo hi : Int) : List Int :=
  (List.range (hi + 1 - lo).toNat).map (fun (i : Nat) => lo + (i : Int))

/-- `XZBBox::into_iter`: the points produced by
`(min_x..=max_x).flat_map(|x| (min_z..=max_z).map(|z| XZPoint::new(x, z)))`,
materialised as the list of points in production order. -/
def XZBBox.into_iter (b : XZBBox) : List XZPoint :=
  (intRangeIncl b.min_x b.max_x).flatMap (fun x =>
    (intRangeIncl b.min_z b.max_z).map (fun z => XZPoint.new x z))

/-- `impl Add<XZVector> for XZBBox`: dispatch to the variant's translation. -/
def XZBBox.add (b : XZBBox) (v : XZVector) : XZBBox :=
  match b with
  | .Rect r => .Rect (r.add v)

/-- `impl AddAssign<XZVector> for XZBBox`: the in-place form; with explicit
state passing it returns the updated box. -/
def XZBBox.add_assign (b : XZBBox) (v : XZVector) : XZBBox :=
  match b with
  | .Rect r => .Rect (r.add v)

/-- `impl Sub<XZVector> for XZBBox`: dispatch to the variant's translation. -/
def XZBBox.sub (b : XZBBox) (v : XZVector) : XZBBox :=
  match b with
  | .Rect r => .Rect (r.sub v)

/-- `impl SubAssign<XZVector> for XZBBox`: the in-place form; with explicit
state passing it returns the updated box. -/
def XZBBox.sub_assign (b : XZBBox) (v : XZVector) : XZBBox :=
  match b with
  | .Rect r => .Rect (r.sub v)

/-- The rectangle invariant owned by `XZBBoxRect`: `min <= max`
componentwise. -/
def XZBBoxRect.valid (r : XZBBoxRect) : Prop :=
  r.min.x ≤ r.max.x ∧ r.min.z ≤ r.max.z

instance (r : XZBBoxRect) : Decidable r.valid := by
  unfold XZBBoxRect.valid; infer_instance

example : XZBBox.rect_from_xz_lengths (.finite 1) (.finite 1) =
    .ok (.Rect ⟨⟨0, 0⟩, ⟨1, 1⟩⟩) := by rfl

example : (XZBBox.Rect ⟨⟨0, 0⟩, ⟨1, 1⟩⟩).into_iter =
    [⟨0, 0⟩, ⟨0, 1⟩, ⟨1, 0⟩, ⟨1, 1⟩] := by decide

/-- The claim's four validity conditions for a length input, read over the
embedded `f64` values: the value is a finite number `q` with
`0 ≤ q ≤ i32::MAX`. -/
def F64.isValidLen : F64 → Prop
  | .nan => False
  | .inf => False
  | .neginf => False
  | .finite q => 0 ≤ q ∧ q ≤ 2147483647

instance (x : F64) : Decidable x.isValidLen := by
  cases x <;> unfold F64.isValidLen <;> infer_instance

theorem F64.finite_ge0_true {q : ℚ} (h : 0 ≤ q) : (F64.finite q).ge0 = true := by
  simp [F64.ge0, h]

theorem F64.finite_gtI32Max_false {q : ℚ} (h : q ≤ 2147483647) :
    (F64.finite q).gtI32Max = false := by
  simp [F64.gtI32Max]
  linarith

theorem F64.finite_as_i32_of_bounds {q : ℚ} (h1 : 0 ≤ q) (h2 : q ≤ 2147483647) :
    (F64.finite q).as_i32 = ⌊q⌋ := by
  have hf0 : 0 ≤ ⌊q⌋ := Int.floor_nonneg.mpr h1
  have hfM : ⌊q⌋ ≤ 2147483647 := by
    have h3 := Int.floor_le_floor h2
    simpa using h3
  simp only [F64.as_i32, if_pos h1]
  rw [min_eq_right hfM, max_eq_right (by omega)]

/-- Shared core: on in-range finite inputs, the factory returns exactly the
rectangle from the origin to the floors of the lengths. -/
theorem rect_from_xz_lengths_eq_ok (q1 q2 : ℚ)
    (h1 : 0 ≤ q1) (h2 : q1 ≤ 2147483647) (h3 : 0 ≤ q2) (h4 : q2 ≤ 2147483647) :
    XZBBox.rect_from_xz_lengths (.finite q1) (.finite q2) =
      .ok (.Rect ⟨⟨0, 0⟩, ⟨⌊q1⌋, ⌊q2⌋⟩⟩) := by
  have hf1 : 0 ≤ ⌊q1⌋ := Int.floor_nonneg.mpr h1
  have hf2 : 0 ≤ ⌊q2⌋ := Int.floor_nonneg.mpr h3
  unfold XZBBox.rect_from_xz_lengths
  rw [F64.finite_ge0_true h1, F64.finite_ge0_true h3,
    F64.finite_gtI32Max_false h2, F64.finite_gtI32Max_false h4,
    F64.finite_as_i32_of_bounds h1 h2, F64.finite_as_i32_of_bounds h3 h4]
  have hcond : ¬(⌊q1⌋ < (0 : ℤ) ∨ ⌊q2⌋ < (0 : ℤ)) := by omega
  simp [XZBBoxRect.new, hcond]
  rfl

/-- C1: for every pair of `f64` lengths in `[0, i32::MAX]`,
`rect_from_xz_lengths` returns `Ok`, and the box has `min_x() = 0`,
`min_z() = 0`, `max_x() = ⌊length_x⌋` and `max_z() = ⌊length_z⌋`
(truncation toward zero coincides with floor on these non-negative
inputs). -/
theorem rect_from_xz_lengths_success (q1 q2 : ℚ)
    (h1 : 0 ≤ q1) (h2 : q1 ≤ 2147483647) (h3 : 0 ≤ q2) (h4 : q2 ≤ 2147483647) :
    ∃ b : XZBBox, XZBBox.rect_from_xz_lengths (.finite q1) (.finite q2) = .ok b ∧
      b.min_x = 0 ∧ b.min_z = 0 ∧ b.max_x = ⌊q1⌋ ∧ b.max_z = ⌊q2⌋ :=
  ⟨.Rect ⟨⟨0, 0⟩, ⟨⌊q1⌋, ⌊q2⌋⟩⟩, rect_from_xz_lengths_eq_ok q1 q2 h1 h2 h3 h4,
    rfl, rfl, rfl, rfl⟩

/-- Witness for C1 at the concrete lengths `123.4` and `322.5` (the source's
own test case): the factory succeeds with `max_x = 123`, `max_z = 322`. -/
theorem rect_from_xz_lengths_success_witness :
    ∃ b : XZBBox,
      XZBBox.rect_from_xz_lengths (.finite (617 / 5)) (.finite (645 / 2)) = .ok b ∧
      b.min_x = 0 ∧ b.min_z = 0 ∧ b.max_x = ⌊(617 / 5 : ℚ)⌋ ∧ b.max_z = ⌊(645 / 2 : ℚ)⌋ :=
  rect_from_xz_lengths_success (617 / 5) (645 / 2)
    (by norm_num) (by norm_num) (by norm_num) (by norm_num)

theorem mem_intRangeIncl (lo hi x : Int) :
    x ∈ intRangeIncl lo hi ↔ lo ≤ x ∧ x ≤ hi := by
  unfold intRangeIncl
  rw [List.mem_map]
  constructor
  · rintro ⟨i, hi2, rfl⟩
    rw [List.mem_range] at hi2
    omega
  · rintro ⟨hl, hr⟩
    refine ⟨(x - lo).toNat, ?_, ?_⟩
    · rw [List.mem_range]
      omega
    · omega

theorem length_intRangeIncl (lo hi : Int) :
    (intRangeIncl lo hi).length = (hi + 1 - lo).toNat := by
  unfold intRangeIncl
  rw [List.length_map, List.length_range]

theorem pairwise_intRangeIncl (lo hi : Int) :
    (intRangeIncl lo hi).Pairwise (· < ·) := by
  unfold intRangeIncl
  rw [List.pairwise_map]
  exact (List.pairwise_lt_range _).imp (by intro a b h; omega)

theorem pairwise_flatMap {α β : Type} {R : α → α → Prop} {S : β → β → Prop}
    (l : List α) (f : α → List β)
    (h1 : l.Pairwise R) (h2 : ∀ a ∈ l, (f a).Pairwise S)
    (h3 : ∀ a b, R a b → ∀ x ∈ f a, ∀ y ∈ f b, S x y) :
    (l.flatMap f).Pairwise S := by
  induction l with
  | nil => simp
  | cons a t ih =>
      rw [List.flatMap_cons, List.pairwise_append]
      rcases List.pairwise_cons.mp h1 with ⟨hat, ht⟩
      refine ⟨h2 a (by simp), ih ht (fun b hb => h2 b (by simp [hb])), ?_⟩
      intro x hx y hy
      rcases List.mem_flatMap.mp hy with ⟨b, hb, hyb⟩
      exact h3 a b (hat b hb) x hx y hyb

theorem length_flatMap_const {α β : Type} (l : List α) (f : α → List β) (k : Nat)
    (h : ∀ a ∈ l, (f a).length = k) : (l.flatMap f).length = l.length * k := by
  induction l with
  | nil => simp
  | cons a t ih =>
      rw [List.flatMap_cons, List.length_append, h a (by simp),
        ih (fun b hb => h b (by simp [hb]))]
      simp [Nat.succ_mul]
      omega

theorem mem_into_iter (b : XZBBox) (p : XZPoint) :
    p ∈ b.into_iter ↔
      b.min_x ≤ p.x ∧ p.x ≤ b.max_x ∧ b.min_z ≤ p.z ∧ p.z ≤ b.max_z := by
  simp only [XZBBox.into_iter, List.mem_flatMap, List.mem_map, mem_intRangeIncl,
    XZPoint.new]
  constructor
  · rintro ⟨x, ⟨hx1, hx2⟩, z, ⟨hz1, hz2⟩, rfl⟩
    exact ⟨hx1, hx2, hz1, hz2⟩
  · rintro ⟨hp1, hp2, hp3, hp4⟩
    exact ⟨p.x, ⟨hp1, hp2⟩, p.z, ⟨hp3, hp4⟩, rfl⟩

/-- C2: over a successfully constructed box (one satisfying the rectangle
invariant), `into_iter` yields exactly `(max_x - min_x + 1) * (max_z - min_z
+ 1)` points; every point of the inclusive rectangle appears, no point
appears twice, every yielded point satisfies `contains`, and the order is
strictly increasing in the lexicographic order with `x` as the outer key and
`z` as the inner key, both ascending. -/
theorem into_iter_complete (b : XZBBox)
    (hx : b.min_x ≤ b.max_x) (hz : b.min_z ≤ b.max_z) :
    ((b.into_iter).length : Int) =
        (b.max_x - b.min_x + 1) * (b.max_z - b.min_z + 1) ∧
      (∀ p : XZPoint, p ∈ b.into_iter ↔
        b.min_x ≤ p.x ∧ p.x ≤ b.max_x ∧ b.min_z ≤ p.z ∧ p.z ≤ b.max_z) ∧
      (∀ p ∈ b.into_iter, b.contains p = true) ∧
      (b.into_iter).Nodup ∧
      (b.into_iter).Pairwise (fun p q => p.x < q.x ∨ (p.x = q.x ∧ p.z < q.z)) := by
  have hpw : (b.into_iter).Pairwise
      (fun p q : XZPoint => p.x < q.x ∨ (p.x = q.x ∧ p.z < q.z)) := by
    unfold XZBBox.into_iter
    refine pairwise_flatMap _ _ (pairwise_intRangeIncl _ _) ?_ ?_
    · intro x _
      rw [List.pairwise_map]
      exact (pairwise_intRangeIncl _ _).imp (by intro a c h; exact Or.inr ⟨rfl, h⟩)
    · intro x y hxy p hp q hq
      rcases List.mem_map.mp hp with ⟨zp, _, rfl⟩
      rcases List.mem_map.mp hq with ⟨zq, _, rfl⟩
      exact Or.inl hxy
  refine ⟨?_, mem_into_iter b, ?_, ?_, hpw⟩
  · have hlen : (b.into_iter).length =
        (b.max_x + 1 - b.min_x).toNat * (b.max_z + 1 - b.min_z).toNat := by
      unfold XZBBox.into_iter
      rw [length_flatMap_const _ _ ((b.max_z + 1 - b.min_z).toNat)
        (by intro a _; rw [List.length_map, length_intRangeIncl]), length_intRangeIncl]
    rw [hlen]
    push_cast
    rw [Int.toNat_of_nonneg (by omega), Int.toNat_of_nonneg (by omega)]
    ring
  · intro p hp
    rcases (mem_into_iter b p).mp hp with ⟨h1, h2, h3, h4⟩
    cases b with
    | Rect r =>
        simp only [XZBBox.contains, XZBBoxRect.contains]
        simp only [XZBBox.min_x, XZBBox.max_x, XZBBox.min_z, XZBBox.max_z,
          XZBBox.bounding_rect] at h1 h2 h3 h4
        simp [h1, h2, h3, h4]
  · exact hpw.imp (by rintro p q (h | ⟨h1, h2⟩) rfl <;> omega)

/-- Witness for C2 at the concrete box `[0,1] × [0,1]`: its iteration has
length 4 and visits `(0,1)` exactly as the membership law predicts. -/
theorem into_iter_complete_witness :
    (((XZBBox.Rect ⟨⟨0, 0⟩, ⟨1, 1⟩⟩).into_iter).length : Int) = 4 ∧
      (XZBBox.Rect ⟨⟨0, 0⟩, ⟨1, 1⟩⟩).contains ⟨0, 1⟩ = true := by
  have h := into_iter_complete (XZBBox.Rect ⟨⟨0, 0⟩, ⟨1, 1⟩⟩)
    (by decide) (by decide)
  refine ⟨by rw [h.1]; decide, ?_⟩
  exact h.2.2.1 ⟨0, 1⟩ ((h.2.1 ⟨0, 1⟩).mpr (by decide))

theorem F64.as_i32_nonneg (x : F64) (h : x.ge0 = true) : 0 ≤ x.as_i32 := by
  cases x with
  | nan => simp [F64.ge0] at h
  | inf => simp [F64.as_i32]
  | neginf => simp [F64.ge0] at h
  | finite q =>
      simp only [F64.ge0, decide_eq_true_eq] at h
      have hf : 0 ≤ ⌊q⌋ := Int.floor_nonneg.mpr h
      simp only [F64.as_i32, if_pos h]
      exact le_max_of_le_right (le_min (by norm_num) hf)

/-- Shared core: the factory returns `Ok` exactly when all four checks
pass. -/
theorem rect_ok_characterization (x y : F64) :
    (∃ b, XZBBox.rect_from_xz_lengths x y = .ok b) ↔
      (x.ge0 = true ∧ y.ge0 = true ∧ x.gtI32Max = false ∧ y.gtI32Max = false) := by
  unfold XZBBox.rect_from_xz_lengths
  by_cases hx : x.ge0
  · by_cases hy : y.ge0
    · by_cases hox : x.gtI32Max
      · simp [hx, hy, hox]
      · by_cases hoy : y.gtI32Max
        · simp [hx, hy, hox, hoy]
        · have h1 := F64.as_i32_nonneg x hx
          have h2 := F64.as_i32_nonneg y hy
          have hcond : ¬(x.as_i32 < 0 ∨ y.as_i32 < 0) := by omega
          simp [hx, hy, hox, hoy, XZBBoxRect.new, hcond, Except.map]
    · simp [hx, hy]
  · simp [hx]

/-- C3: over non-NaN inputs, `rect_from_xz_lengths` succeeds exactly when
both lengths are finite values in `[0, i32::MAX]`; moreover any violation of
the four conditions (whatever the other argument is) means no box is ever
produced. -/
theorem rect_from_xz_lengths_failure_iff :
    (∀ x y : F64, (¬x.isValidLen ∨ ¬y.isValidLen) →
      ∀ b : XZBBox, XZBBox.rect_from_xz_lengths x y ≠ .ok b) ∧
    (∀ x y : F64, x ≠ .nan → y ≠ .nan →
      ((∃ b, XZBBox.rect_from_xz_lengths x y = .ok b) ↔
        (x.isValidLen ∧ y.isValidLen))) := by
  have hvalid : ∀ x : F64, x ≠ .nan →
      (x.isValidLen ↔ (x.ge0 = true ∧ x.gtI32Max = false)) := by
    intro x hx
    cases x with
    | nan => exact absurd rfl hx
    | inf => simp [F64.isValidLen, F64.ge0, F64.gtI32Max]
    | neginf => simp [F64.isValidLen, F64.ge0, F64.gtI32Max]
    | finite q => simp [F64.isValidLen, F64.ge0, F64.gtI32Max, not_lt]
  constructor
  · intro x y hviol b hok
    rcases (rect_ok_characterization x y).mp ⟨b, hok⟩ with ⟨h1, h2, h3, h4⟩
    rcases hviol with hv | hv
    · cases x with
      | nan => simp [F64.ge0] at h1
      | inf => simp [F64.gtI32Max] at h3
      | neginf => simp [F64.ge0] at h1
      | finite q =>
          simp only [F64.ge0, decide_eq_true_eq] at h1
          simp only [F64.gtI32Max, decide_eq_false_iff_not, not_lt] at h3
          exact hv ⟨h1, h3⟩
    · cases y with
      | nan => simp [F64.ge0] at h2
      | inf => simp [F64.gtI32Max] at h4
      | neginf => simp [F64.ge0] at h2
      | finite q =>
          simp only [F64.ge0, decide_eq_true_eq] at h2
          simp only [F64.gtI32Max, decide_eq_false_iff_not, not_lt] at h4
          exact hv ⟨h2, h4⟩
  · intro x y hx hy
    rw [rect_ok_characterization, hvalid x hx, hvalid y hy]
    tauto

/-- Witness for C3: at `length_x = -1.0`, `length_z = 1.0` the
characterization applies and the factory rejects the negative length. -/
theorem rect_from_xz_lengths_failure_iff_witness :
    ((∃ b, XZBBox.rect_from_xz_lengths (.finite (-1)) (.finite 1) = .ok b) ↔
      ((F64.finite (-1)).isValidLen ∧ (F64.finite 1).isValidLen)) ∧
    XZBBox.rect_from_xz_lengths (.finite (-1)) (.finite 1) ≠
      .ok (.Rect ⟨⟨0, 0⟩, ⟨0, 0⟩⟩) := by
  constructor
  · exact rect_from_xz_lengths_failure_iff.2 _ _ (by decide) (by decide)
  · exact rect_from_xz_lengths_failure_iff.1 _ _ (Or.inl (by decide)) _

theorem rect_err_of_x_neg (x y : F64) (h : x.ge0 = false) :
    XZBBox.rect_from_xz_lengths x y =
      .error ("Invalid XZBBox::Rect from xz lengths: length x should >=0 , but encountered " ++ x.render) := by
  unfold XZBBox.rect_from_xz_lengths
  simp [h]

theorem rect_err_of_z_neg (x y : F64) (hx : x.ge0 = true) (h : y.ge0 = false) :
    XZBBox.rect_from_xz_lengths x y =
      .error ("Invalid XZBBox::Rect from xz lengths: length z should >=0 , but encountered " ++ x.render) := by
  unfold XZBBox.rect_from_xz_lengths
  simp [hx, h]

theorem rect_err_of_x_overflow (x y : F64) (hx : x.ge0 = true)
    (hy : y.ge0 = true) (h : x.gtI32Max = true) :
    XZBBox.rect_from_xz_lengths x y =
      .error ("Invalid XZBBox::Rect from xz lengths: length x too large for i32: " ++ x.render) := by
  unfold XZBBox.rect_from_xz_lengths
  simp [hx, hy, h]

/-- C4: with several conditions violated at once, the reported failure is
that of the first failing check in the fixed order x-nonnegative,
z-nonnegative, x-overflow, z-overflow; e.g. for `length_x > i32::MAX` and
`length_z < 0` the failure reported is the z-nonnegativity one (and the
x-negative failure wins over a z violation of either kind, the x-overflow
failure over a z overflow). -/
theorem rect_checks_ordered (q1 q2 : ℚ) :
    ((q1 < 0 → q2 < 0 →
      XZBBox.rect_from_xz_lengths (.finite q1) (.finite q2) =
        .error ("Invalid XZBBox::Rect from xz lengths: length x should >=0 , but encountered " ++ (F64.finite q1).render)) ∧
    (q1 < 0 → 2147483647 < q2 →
      XZBBox.rect_from_xz_lengths (.finite q1) (.finite q2) =
        .error ("Invalid XZBBox::Rect from xz lengths: length x should >=0 , but encountered " ++ (F64.finite q1).render))) ∧
    (2147483647 < q1 → q2 < 0 →
      XZBBox.rect_from_xz_lengths (.finite q1) (.finite q2) =
        .error ("Invalid XZBBox::Rect from xz lengths: length z should >=0 , but encountered " ++ (F64.finite q1).render)) ∧
    (2147483647 < q1 → 2147483647 < q2 →
      XZBBox.rect_from_xz_lengths (.finite q1) (.finite q2) =
        .error ("Invalid XZBBox::Rect from xz lengths: length x too large for i32: " ++ (F64.finite q1).render)) := by
  refine ⟨⟨?_, ?_⟩, ?_, ?_⟩
  · intro h1 _
    exact rect_err_of_x_neg _ _ (by simp [F64.ge0]; linarith)
  · intro h1 _
    exact rect_err_of_x_neg _ _ (by simp [F64.ge0]; linarith)
  · intro h1 h2
    exact rect_err_of_z_neg _ _ (by simp [F64.ge0]; linarith)
      (by simp [F64.ge0]; linarith)
  · intro h1 h2
    exact rect_err_of_x_overflow _ _ (by simp [F64.ge0]; linarith)
      (by simp [F64.ge0]; linarith) (by simp [F64.gtI32Max]; linarith)

/-- Witness for C4 at `length_x = i32::MAX + 1`, `length_z = -2`: the
reported failure is the z-nonnegativity one. -/
theorem rect_checks_ordered_witness :
    XZBBox.rect_from_xz_lengths (.finite 2147483648) (.finite (-2)) =
      .error ("Invalid XZBBox::Rect from xz lengths: length z should >=0 , but encountered " ++ (F64.finite 2147483648).render) :=
  (rect_checks_ordered 2147483648 (-2)).2.1 (by norm_num) (by norm_num)

/-- C5: evaluation at `length_x = 1.0`, `length_z = -2.0`: the
negative-`length_z` failure message embeds the rendered value of `length_x`
("1"), not that of the offending `length_z` ("-2") — the source's `format!`
template for this branch interpolates `{length_x}`. -/
theorem rect_neg_z_message_embeds_length_x :
    XZBBox.rect_from_xz_lengths (.finite 1) (.finite (-2)) =
      .error "Invalid XZBBox::Rect from xz lengths: length z should >=0 , but encountered 1" ∧
    (F64.finite (-2)).render = "-2" := by
  constructor
  · rfl
  · rfl

/-- C6: for every box and integer point, `contains` returns true exactly when
the point lies within `[min_x, max_x] × [min_z, max_z]`; `contains` is a pure
function of the box and the point, so the call cannot mutate the box. -/
theorem contains_iff_bounds (b : XZBBox) (p : XZPoint) :
    b.contains p = true ↔
      (b.min_x ≤ p.x ∧ p.x ≤ b.max_x ∧ b.min_z ≤ p.z ∧ p.z ≤ b.max_z) := by
  cases b with
  | Rect r =>
      simp [XZBBox.contains, XZBBoxRect.contains, XZBBox.min_x, XZBBox.max_x,
        XZBBox.min_z, XZBBox.max_z, XZBBox.bounding_rect, and_assoc]

/-- C7: translating a box by a vector and then back — as `(b + v) - v`, as
`(b + v) + (-v)`, and through the compound-assignment forms — restores the
original box, variant and all four corner coordinates included. -/
theorem translate_round_trip (b : XZBBox) (v : XZVector) :
    (b.add v).sub v = b ∧ (b.add v).add v.neg = b ∧
      (b.add_assign v).sub_assign v = b := by
  cases b with
  | Rect r =>
      refine ⟨?_, ?_, ?_⟩ <;>
        · simp only [XZBBox.add, XZBBox.sub, XZBBox.add_assign,
            XZBBox.sub_assign, XZBBoxRect.add, XZBBoxRect.sub, XZVector.neg,
            XZBBox.Rect.injEq]
          cases r with
          | mk rmin rmax =>
              cases rmin
              cases rmax
              simp only [XZBBoxRect.mk.injEq, XZPoint.mk.injEq]
              omega

/-- C8: the four accessors are exactly the corner coordinates of
`bounding_rect()` — they have no independent storage — and on the rectangular
variant `bounding_rect()` returns the wrapped rectangle itself. -/
theorem accessors_derived_from_bounding_rect (b : XZBBox) :
    b.min_x = b.bounding_rect.min.x ∧ b.max_x = b.bounding_rect.max.x ∧
      b.min_z = b.bounding_rect.min.z ∧ b.max_z = b.bounding_rect.max.z ∧
      ∀ r : XZBBoxRect, XZBBox.bounding_rect (.Rect r) = r :=
  ⟨rfl, rfl, rfl, rfl, fun _ => rfl⟩

/-- C9: every translation operator on a rectangle-variant box yields a
rectangle-variant box (the `+=`/`-=` forms agree with `+`/`-`), shifts both
corners by the vector (by its negation for subtraction), and therefore
preserves the componentwise `min ≤ max` invariant. -/
theorem translate_preserves_variant (r : XZBBoxRect) (v : XZVector) :
    (∃ r2 : XZBBoxRect, (XZBBox.Rect r).add v = .Rect r2 ∧
      (XZBBox.Rect r).add_assign v = .Rect r2 ∧
      r2.min.x = r.min.x + v.dx ∧ r2.min.z = r.min.z + v.dz ∧
      r2.max.x = r.max.x + v.dx ∧ r2.max.z = r.max.z + v.dz ∧
      (r.valid → r2.valid)) ∧
    (∃ r3 : XZBBoxRect, (XZBBox.Rect r).sub v = .Rect r3 ∧
      (XZBBox.Rect r).sub_assign v = .Rect r3 ∧
      r3.min.x = r.min.x - v.dx ∧ r3.min.z = r.min.z - v.dz ∧
      r3.max.x = r.max.x - v.dx ∧ r3.max.z = r.max.z - v.dz ∧
      (r.valid → r3.valid)) := by
  constructor
  · refine ⟨r.add v, rfl, rfl, rfl, rfl, rfl, rfl, ?_⟩
    rintro ⟨h1, h2⟩
    exact ⟨by simp only [XZBBoxRect.add]; omega,
      by simp only [XZBBoxRect.add]; omega⟩
  · refine ⟨r.sub v, rfl, rfl, rfl, rfl, rfl, rfl, ?_⟩
    rintro ⟨h1, h2⟩
    exact ⟨by simp only [XZBBoxRect.sub]; omega,
      by simp only [XZBBoxRect.sub]; omega⟩

/-- Witness for C9 at the box `[0,1] × [0,1]` and the vector `(2,3)`. -/
theorem translate_preserves_variant_witness :
    (∃ r2 : XZBBoxRect,
      (XZBBox.Rect ⟨⟨0, 0⟩, ⟨1, 1⟩⟩).add ⟨2, 3⟩ = .Rect r2 ∧
      (XZBBox.Rect ⟨⟨0, 0⟩, ⟨1, 1⟩⟩).add_assign ⟨2, 3⟩ = .Rect r2 ∧
      r2.min.x = (0 : Int) + 2 ∧ r2.min.z = (0 : Int) + 3 ∧
      r2.max.x = (1 : Int) + 2 ∧ r2.max.z = (1 : Int) + 3 ∧
      ((XZBBoxRect.mk ⟨0, 0⟩ ⟨1, 1⟩).valid → r2.valid)) ∧
    (∃ r3 : XZBBoxRect,
      (XZBBox.Rect ⟨⟨0, 0⟩, ⟨1, 1⟩⟩).sub ⟨2, 3⟩ = .Rect r3 ∧
      (XZBBox.Rect ⟨⟨0, 0⟩, ⟨1, 1⟩⟩).sub_assign ⟨2, 3⟩ = .Rect r3 ∧
      r3.min.x = (0 : Int) - 2 ∧ r3.min.z = (0 : Int) - 3 ∧
      r3.max.x = (1 : Int) - 2 ∧ r3.max.z = (1 : Int) - 3 ∧
      ((XZBBoxRect.mk ⟨0, 0⟩ ⟨1, 1⟩).valid → r3.valid)) :=
  translate_preserves_variant ⟨⟨0, 0⟩, ⟨1, 1⟩⟩ ⟨2, 3⟩

/-- C10: a NaN length never produces a box: NaN fails the `>= 0.0`
comparison, so whichever argument is NaN, one of the two non-negativity
checks rejects before any box is built. -/
theorem nan_never_constructs (x y : F64) (h : x = .nan ∨ y = .nan) :
    ∀ b : XZBBox, XZBBox.rect_from_xz_lengths x y ≠ .ok b := by
  intro b
  unfold XZBBox.rect_from_xz_lengths
  rcases h with rfl | rfl
  · simp [F64.ge0]
  · simp only [F64.ge0]
    split <;> simp

/-- Witness for C10: NaN as `length_x` (with `length_z = 1.0`) does not
produce the unit box at the origin. -/
theorem nan_never_constructs_witness :
    XZBBox.rect_from_xz_lengths .nan (.finite 1) ≠ .ok (.Rect ⟨⟨0, 0⟩, ⟨0, 0⟩⟩) :=
  nan_never_constructs _ _ (Or.inl rfl) _
